import Mathlib

/-!
Verification of the HOTPIN voice-conversation gateway core against its
design specification.  The definitions below are shallow embeddings of the
repository code:

* `manage_context` embeds `core/llm_client.py:manage_context`;
* `get_llm_response` embeds `core/llm_client.py:get_llm_response`, with the
  remote Groq HTTP call abstracted to an `ApiResult` outcome value (the
  remote service is an external collaborator);
* `create_wav_header` / `unwrap` embed `core/stt_worker.py:create_wav_header`
  and the WAV open/validate/readframes portion of
  `core/stt_worker.py:process_audio_for_transcription`, at byte level with
  the semantics of the Python `wave` module;
* `ensure_pcm_format` embeds `core/tts_worker.py:_ensure_pcm_format`, with
  the `audioop` sample transformations abstracted as parameters (external
  library code) while their format bookkeeping follows the source;
* `handleBinary`, `handleEos`, `handleReset`, `registerSession` embed the
  corresponding branches of the websocket loop in `main.py` (lines 329-504),
  with the three stage adapters abstracted as oracle functions.
-/

/-- One message of a conversation history: `{"role": ..., "content": ...}`
as appended by `manage_context` in `core/llm_client.py`. -/
structure Turn where
  role : String
  content : String
deriving DecidableEq, Repr

/-- Embedding of `core/llm_client.py:manage_context` acting on one session
history.  The Python code appends the new message and then, when the length
exceeds `max_history_turns * 2`, keeps only the last `max_history_turns * 2`
messages (`history[-max_messages:]`). -/
def manage_context (hist : List Turn) (role content : String)
    (max_history_turns : Nat) : List Turn :=
  if (hist ++ [Turn.mk role content]).length > max_history_turns * 2 then
    (hist ++ [Turn.mk role content]).drop
      ((hist ++ [Turn.mk role content]).length - max_history_turns * 2)
  else
    hist ++ [Turn.mk role content]

/-- The 21 messages of the C1 counterexample run: ten full user/assistant
pairs followed by an eleventh user message, at the default cap of 10 turns. -/
def c1Msgs : List Turn :=
  [⟨"user", "u1"⟩, ⟨"assistant", "a1"⟩,
   ⟨"user", "u2"⟩, ⟨"assistant", "a2"⟩,
   ⟨"user", "u3"⟩, ⟨"assistant", "a3"⟩,
   ⟨"user", "u4"⟩, ⟨"assistant", "a4"⟩,
   ⟨"user", "u5"⟩, ⟨"assistant", "a5"⟩,
   ⟨"user", "u6"⟩, ⟨"assistant", "a6"⟩,
   ⟨"user", "u7"⟩, ⟨"assistant", "a7"⟩,
   ⟨"user", "u8"⟩, ⟨"assistant", "a8"⟩,
   ⟨"user", "u9"⟩, ⟨"assistant", "a9"⟩,
   ⟨"user", "u10"⟩, ⟨"assistant", "a10"⟩,
   ⟨"user", "u11"⟩]

/-- The history produced by appending the 21 messages of `c1Msgs` one by one
through `manage_context` with the default cap of 10 turns. -/
def c1Run : List Turn :=
  c1Msgs.foldl (fun h t => manage_context h t.role t.content 10) []

/-- C1 counterexample: after ten full pairs plus one more user append at the
default cap of 10 turns, the trim removed only the single oldest message
(the first user turn), so the history starts with an assistant message and
roles are desynchronized.  Had the oldest whole pair been removed, the
history would have had 19 messages and would start with the user turn u2. -/
theorem c1_trim_drops_single_message :
    c1Run.length = 20 ∧ c1Run.head? = some ⟨"assistant", "a1"⟩ := by
  constructor
  · rfl
  · rfl

/-- C1 amended: after every `manage_context` append the history length stays
at most `2 * max_history_turns`, and when the cap is exceeded the trim drops
exactly the single oldest message (not a whole pair), so the new history is
the old history without its first message plus the appended one. -/
theorem manage_context_cap_and_single_trim
    (hist : List Turn) (role content : String) (m : Nat)
    (hlen : hist.length ≤ 2 * m) :
    (manage_context hist role content m).length ≤ 2 * m ∧
      (hist.length = 2 * m → 0 < m →
        manage_context hist role content m =
          hist.drop 1 ++ [⟨role, content⟩]) := by
  constructor
  · rw [manage_context]
    split
    · rename_i hgt
      simp only [List.length_append, List.length_cons, List.length_nil] at hgt
      simp only [List.length_drop, List.length_append, List.length_cons,
        List.length_nil]
      omega
    · rename_i hle
      simp only [not_lt, List.length_append, List.length_cons,
        List.length_nil] at hle
      simp only [List.length_append, List.length_cons, List.length_nil]
      omega
  · intro hcap hm
    have hgt : (hist ++ [Turn.mk role content]).length > m * 2 := by
      simp only [List.length_append, List.length_cons, List.length_nil]
      omega
    have hdrop : (hist ++ [Turn.mk role content]).length - m * 2 = 1 := by
      simp only [List.length_append, List.length_cons, List.length_nil]
      omega
    rw [manage_context, if_pos hgt, hdrop,
      List.drop_append_of_le_length (by omega)]

/-- Outcome of the remote Groq chat-completions HTTP call made by
`get_llm_response`.  The remote service is an external collaborator, so only
the outcomes distinguished by the source code are modelled: a parsed
response whose first choice carries the given content string, a response
with a missing or empty choices list, and the four exception classes caught
by the source. -/
inductive ApiResult where
  | success (content : String)
  | noChoices
  | httpStatusError
  | requestError
  | keyError
  | otherError
deriving DecidableEq, Repr

/-- Fallback reply for a malformed API response, from
`core/llm_client.py` lines 198 and 224. -/
def FALLBACK_MALFORMED : String :=
  "I encountered an issue processing your request. Please try again."

/-- Fallback reply for an empty assistant message, from
`core/llm_client.py` line 207. -/
def FALLBACK_EMPTY : String :=
  "I\x27m having trouble responding right now. Please rephrase your question."

/-- Fallback reply for an HTTP status error, from
`core/llm_client.py` line 216. -/
def FALLBACK_HTTP : String :=
  "Service temporarily unavailable. Please try again."

/-- Fallback reply for a request or timeout error, from
`core/llm_client.py` line 220. -/
def FALLBACK_REQUEST : String :=
  "Connection error. Please check your network."

/-- Fallback reply for any other exception, from
`core/llm_client.py` line 230. -/
def FALLBACK_OTHER : String :=
  "An error occurred. Please try again."

/-- Emptiness test used throughout the source as
`not text or text.strip() == ""`: true exactly when every character of the
string is whitespace (in particular for the empty string). -/
def isBlank (s : String) : Bool :=
  s.data.all Char.isWhitespace

/-- Embedding of `core/llm_client.py:get_llm_response` acting on one session
history.  The user turn is appended via `manage_context` before the API
call; the assistant turn is appended only when the call succeeds with a
non-empty content string; every caught failure returns a fixed fallback
string and leaves the history with the unpaired user turn.  Returns the new
history together with the reply string. -/
def get_llm_response (hist : List Turn) (transcript : String)
    (r : ApiResult) : List Turn × String :=
  let h1 := manage_context hist "user" transcript 10
  match r with
  | ApiResult.success content =>
      if isBlank content then (h1, FALLBACK_EMPTY)
      else (manage_context h1 "assistant" content 10, content)
  | ApiResult.noChoices => (h1, FALLBACK_MALFORMED)
  | ApiResult.httpStatusError => (h1, FALLBACK_HTTP)
  | ApiResult.requestError => (h1, FALLBACK_REQUEST)
  | ApiResult.keyError => (h1, FALLBACK_MALFORMED)
  | ApiResult.otherError => (h1, FALLBACK_OTHER)

/-- An API outcome counts as failed when the source takes any path that
returns a fallback string instead of appending an assistant turn. -/
def ApiResult.failed : ApiResult → Bool
  | ApiResult.success content => isBlank content
  | _ => true

/-- The fallback string the source returns for each failed outcome. -/
def fallbackFor : ApiResult → String
  | ApiResult.success _ => FALLBACK_EMPTY
  | ApiResult.noChoices => FALLBACK_MALFORMED
  | ApiResult.httpStatusError => FALLBACK_HTTP
  | ApiResult.requestError => FALLBACK_REQUEST
  | ApiResult.keyError => FALLBACK_MALFORMED
  | ApiResult.otherError => FALLBACK_OTHER

/-- A `manage_context` append always leaves the appended message as the last
element of the history: the trim only drops messages from the front. -/
theorem manage_context_getLast (hist : List Turn) (role content : String)
    (m : Nat) (hm : 0 < m) :
    (manage_context hist role content m).getLast? =
      some (Turn.mk role content) := by
  rw [manage_context]
  split
  · rename_i hgt
    simp only [List.length_append, List.length_cons, List.length_nil] at hgt
    have hle : (hist ++ [Turn.mk role content]).length - m * 2 ≤
        hist.length := by
      simp only [List.length_append, List.length_cons, List.length_nil]
      omega
    rw [List.drop_append_of_le_length hle]
    simp
  · simp

/-- C10: on every failed completion call the user turn has already been
appended to the history, no assistant turn is appended, the fixed fallback
string for that failure class is returned, the history ends in the unpaired
user turn, and (concrete instance) two back-to-back failed calls leave two
consecutive user turns in the history. -/
theorem c10_failed_completion_unpaired_user
    (hist : List Turn) (t : String) (r : ApiResult)
    (hfail : r.failed = true) :
    (get_llm_response hist t r).1 = manage_context hist "user" t 10 ∧
      (get_llm_response hist t r).2 = fallbackFor r ∧
      (get_llm_response hist t r).1.getLast? = some (Turn.mk "user" t) ∧
      (get_llm_response ((get_llm_response [] "a" ApiResult.requestError).1)
          "b" ApiResult.requestError).1 =
        [Turn.mk "user" "a", Turn.mk "user" "b"] := by
  cases r with
  | success content =>
      have hc : isBlank content = true := by
        simpa [ApiResult.failed] using hfail
      refine ⟨?_, ?_, ?_, rfl⟩
      · simp [get_llm_response, hc]
      · simp [get_llm_response, hc, fallbackFor]
      · simp only [get_llm_response, hc, if_pos]
        exact manage_context_getLast hist "user" t 10 (by norm_num)
  | noChoices =>
      exact ⟨rfl, rfl, manage_context_getLast hist "user" t 10 (by norm_num),
        rfl⟩
  | httpStatusError =>
      exact ⟨rfl, rfl, manage_context_getLast hist "user" t 10 (by norm_num),
        rfl⟩
  | requestError =>
      exact ⟨rfl, rfl, manage_context_getLast hist "user" t 10 (by norm_num),
        rfl⟩
  | keyError =>
      exact ⟨rfl, rfl, manage_context_getLast hist "user" t 10 (by norm_num),
        rfl⟩
  | otherError =>
      exact ⟨rfl, rfl, manage_context_getLast hist "user" t 10 (by norm_num),
        rfl⟩

/-- Witness for C10 at the concrete input `hist = []`, transcript "hello",
outcome `requestError` (the class a timeout falls into). -/
theorem c10_failed_completion_unpaired_user_witness :
    ApiResult.requestError.failed = true ∧
      ((get_llm_response [] "hello" ApiResult.requestError).1 =
          manage_context [] "user" "hello" 10 ∧
        (get_llm_response [] "hello" ApiResult.requestError).2 =
          fallbackFor ApiResult.requestError ∧
        (get_llm_response [] "hello" ApiResult.requestError).1.getLast? =
          some (Turn.mk "user" "hello") ∧
        (get_llm_response ((get_llm_response [] "a" ApiResult.requestError).1)
            "b" ApiResult.requestError).1 =
          [Turn.mk "user" "a", Turn.mk "user" "b"]) :=
  ⟨rfl, c10_failed_completion_unpaired_user [] "hello" ApiResult.requestError
    rfl⟩

/-- The two per-session global maps touched by a handshake registration:
`SESSION_AUDIO_BUFFERS` and `SESSION_CONTEXTS` (`main.py` line 340 and
`core/llm_client.py` line 19), each keyed by session id. -/
structure Registry where
  buffers : String → Option (List Nat)
  contexts : String → Option (List Turn)

/-- Embedding of the handshake registration step (`main.py` lines 340-341):
the session audio buffer entry is unconditionally replaced with a fresh
empty buffer, while `SESSION_CONTEXTS` is not touched by the handshake. -/
def registerSession (reg : Registry) (sid : String) : Registry :=
  { reg with buffers := fun k => if k = sid then some [] else reg.buffers k }

/-- A registry in which session s1 already has a non-empty audio buffer and
a non-empty conversation history from a prior connection. -/
def c7Prior : Registry :=
  { buffers := fun k => if k = "s1" then some [4, 5, 6] else none,
    contexts := fun k => if k = "s1" then some [Turn.mk "user" "old"] else
      none }

/-- C7 counterexample: registering the already-registered id s1 does not
reject the connection and does not discard the prior conversation context:
the old history is still attached to s1 afterwards, and the next completion
call for s1 would extend that old history.  (The audio buffer, by contrast,
is replaced with a fresh empty one.) -/
theorem c7_duplicate_registration_keeps_context :
    (registerSession c7Prior "s1").contexts "s1" =
        some [Turn.mk "user" "old"] ∧
      (registerSession c7Prior "s1").buffers "s1" = some [] ∧
      manage_context [Turn.mk "user" "old"] "user" "new" 10 =
        [Turn.mk "user" "old", Turn.mk "user" "new"] :=
  ⟨rfl, rfl, rfl⟩

/-- C7 amended: a handshake on a duplicate session id atomically replaces
the prior audio-buffer entry with a fresh empty buffer (it never merges the
two connections' audio and never rejects), but it leaves the conversation
context map untouched, so the prior connection's context remains attached
to the new entry. -/
theorem c7_registration_replaces_buffer_keeps_context
    (reg : Registry) (sid : String) :
    (registerSession reg sid).buffers sid = some [] ∧
      (registerSession reg sid).contexts = reg.contexts ∧
      ∀ k, k ≠ sid → (registerSession reg sid).buffers k = reg.buffers k := by
  refine ⟨by simp [registerSession], rfl, ?_⟩
  intro k hk
  simp [registerSession, hk]

/-- Witness for C7 amended at the concrete registry `c7Prior` and id s1. -/
theorem c7_registration_replaces_buffer_keeps_context_witness :
    (registerSession c7Prior "s1").buffers "s1" = some [] ∧
      (registerSession c7Prior "s1").contexts = c7Prior.contexts ∧
      ∀ k, k ≠ "s1" →
        (registerSession c7Prior "s1").buffers k = c7Prior.buffers k :=
  c7_registration_replaces_buffer_keeps_context c7Prior "s1"

/-- Little-endian encoding of a 16-bit field, as written by the Python
`wave` module header packer. -/
def u16le (n : Nat) : List Nat :=
  [n % 256, n / 256 % 256]

/-- Little-endian encoding of a 32-bit field, as written by the Python
`wave` module header packer. -/
def u32le (n : Nat) : List Nat :=
  [n % 256, n / 256 % 256, n / 65536 % 256, n / 16777216 % 256]

/-- Embedding of `core/stt_worker.py:create_wav_header`: the exact byte
sequence the Python `wave` module produces for an in-memory PCM WAV file —
the RIFF chunk header, the fmt chunk (PCM format tag 1, channel count,
sample rate, byte rate, block align, bits per sample), and the data chunk
holding the raw PCM bytes.  The data chunk size is the full byte count of
the PCM payload, exactly as `wave.writeframes` records it. -/
def create_wav_header (pcm : List Nat) (sample_rate channels sample_width :
    Nat) : List Nat :=
  [82, 73, 70, 70] ++ u32le (36 + pcm.length) ++
    [87, 65, 86, 69, 102, 109, 116, 32] ++ u32le 16 ++ u16le 1 ++
    u16le channels ++ u32le sample_rate ++
    u32le (sample_rate * channels * sample_width) ++
    u16le (channels * sample_width) ++ u16le (sample_width * 8) ++
    [100, 97, 116, 97] ++ u32le pcm.length ++ pcm

/-- Byte accessor used by the WAV reader, with 0 for out-of-range reads. -/
def byteAt (b : List Nat) (i : Nat) : Nat :=
  b.getD i 0

/-- Little-endian 16-bit read at an offset. -/
def readU16 (b : List Nat) (i : Nat) : Nat :=
  byteAt b i + 256 * byteAt b (i + 1)

/-- Little-endian 32-bit read at an offset. -/
def readU32 (b : List Nat) (i : Nat) : Nat :=
  byteAt b i + 256 * byteAt b (i + 1) + 65536 * byteAt b (i + 2) +
    16777216 * byteAt b (i + 3)

/-- The audio format triple carried by a WAV header. -/
structure AudioFormat where
  rate : Nat
  channels : Nat
  width : Nat
deriving DecidableEq, Repr

/-- Embedding of the WAV open/validate/read portion of
`core/stt_worker.py:process_audio_for_transcription` (lines 110-134)
applied to a `wave`-module file: parse the RIFF/fmt/data layout, reject
audio that is not mono, 16-bit, 16 kHz, and read the PCM data the way the
source loop over `wave.readframes` does.  Each `readframes(n)` call reads
`n * framesize` bytes from the data chunk, capped only by the byte size of
the chunk, so the loop that runs until `readframes` returns empty yields
every byte of the data chunk, including a trailing partial frame. -/
def unwrap (b : List Nat) : Except String (List Nat × AudioFormat) :=
  if b.length < 44 then Except.error "file does not start with RIFF id"
  else if ¬ (b.take 4 = [82, 73, 70, 70] ∧
      (b.drop 8).take 4 = [87, 65, 86, 69] ∧
      (b.drop 12).take 4 = [102, 109, 116, 32] ∧
      (b.drop 36).take 4 = [100, 97, 116, 97]) then
    Except.error "file does not start with RIFF id"
  else
    if readU16 b 22 ≠ 1 then
      Except.error "Audio must be mono (1 channel)"
    else if readU16 b 34 / 8 ≠ 2 then
      Except.error "Audio must be 16-bit (2 bytes)"
    else if readU32 b 24 ≠ 16000 then
      Except.error "Audio must be 16kHz"
    else
      Except.ok
        (((b.drop 44).take (readU32 b 40)),
          AudioFormat.mk (readU32 b 24) (readU16 b 22) (readU16 b 34 / 8))

set_option maxHeartbeats 3200000 in
/-- C8: for every non-empty PCM byte sequence (below the 32-bit data-chunk
size limit of the container), the wrap/unwrap round trip through the WAV
container is the identity and recovers the 16 kHz mono 16-bit format. -/
theorem c8_roundtrip (pcm : List Nat) (_hne : pcm ≠ [])
    (hsz : pcm.length < 4294967296) :
    unwrap (create_wav_header pcm 16000 1 2) =
      Except.ok (pcm, AudioFormat.mk 16000 1 2) := by
  have hlen : (create_wav_header pcm 16000 1 2).length = 44 + pcm.length := by
    simp only [create_wav_header, u32le, u16le, List.length_append,
      List.length_cons, List.length_nil]
  have b22 : byteAt (create_wav_header pcm 16000 1 2) 22 = 1 := rfl
  have b23 : byteAt (create_wav_header pcm 16000 1 2) 23 = 0 := rfl
  have b24 : byteAt (create_wav_header pcm 16000 1 2) 24 = 128 := rfl
  have b25 : byteAt (create_wav_header pcm 16000 1 2) 25 = 62 := rfl
  have b26 : byteAt (create_wav_header pcm 16000 1 2) 26 = 0 := rfl
  have b27 : byteAt (create_wav_header pcm 16000 1 2) 27 = 0 := rfl
  have b34 : byteAt (create_wav_header pcm 16000 1 2) 34 = 16 := rfl
  have b35 : byteAt (create_wav_header pcm 16000 1 2) 35 = 0 := rfl
  have b40 : byteAt (create_wav_header pcm 16000 1 2) 40 =
      pcm.length % 256 := rfl
  have b41 : byteAt (create_wav_header pcm 16000 1 2) 41 =
      pcm.length / 256 % 256 := rfl
  have b42 : byteAt (create_wav_header pcm 16000 1 2) 42 =
      pcm.length / 65536 % 256 := rfl
  have b43 : byteAt (create_wav_header pcm 16000 1 2) 43 =
      pcm.length / 16777216 % 256 := rfl
  have h22 : readU16 (create_wav_header pcm 16000 1 2) 22 = 1 := by
    simp only [readU16, Nat.reduceAdd, b22, b23]
  have h34 : readU16 (create_wav_header pcm 16000 1 2) 34 = 16 := by
    simp only [readU16, Nat.reduceAdd, b34, b35]
  have h24 : readU32 (create_wav_header pcm 16000 1 2) 24 = 16000 := by
    simp only [readU32, Nat.reduceAdd, b24, b25, b26, b27]
  have hdl : readU32 (create_wav_header pcm 16000 1 2) 40 = pcm.length := by
    simp only [readU32, Nat.reduceAdd, b40, b41, b42, b43]
    omega
  have h1 : ¬ ((create_wav_header pcm 16000 1 2).length < 44) := by
    rw [hlen]; omega
  have hids : (create_wav_header pcm 16000 1 2).take 4 = [82, 73, 70, 70] ∧
      ((create_wav_header pcm 16000 1 2).drop 8).take 4 = [87, 65, 86, 69] ∧
      ((create_wav_header pcm 16000 1 2).drop 12).take 4 =
        [102, 109, 116, 32] ∧
      ((create_wav_header pcm 16000 1 2).drop 36).take 4 =
        [100, 97, 116, 97] := ⟨rfl, rfl, rfl, rfl⟩
  have hdrop : (create_wav_header pcm 16000 1 2).drop 44 = pcm := rfl
  rw [unwrap, if_neg h1, if_neg (not_not_intro hids)]
  rw [h22, h34, h24, hdl, hdrop]
  rw [if_neg (not_not_intro (rfl : (1 : Nat) = 1))]
  rw [if_neg (not_not_intro (rfl : ((16 : Nat) / 8) = 2))]
  rw [if_neg (not_not_intro (rfl : (16000 : Nat) = 16000))]
  rw [List.take_length]

/-- Witness for C8 at the concrete one-byte payload [7], whose trailing
partial frame survives the round trip. -/
theorem c8_roundtrip_witness :
    (([7] : List Nat) ≠ [] ∧ ([7] : List Nat).length < 4294967296) ∧
      unwrap (create_wav_header [7] 16000 1 2) =
        Except.ok ([7], AudioFormat.mk 16000 1 2) :=
  ⟨⟨by decide, by decide⟩, c8_roundtrip [7] (by decide) (by decide)⟩

/-- The parameter block of a WAV file as read by `wave.getparams` in
`core/tts_worker.py:_ensure_pcm_format`. -/
structure WavParams where
  nchannels : Nat
  sampwidth : Nat
  framerate : Nat
deriving DecidableEq, Repr

/-- The three sample transformations of the Python `audioop` module used by
`_ensure_pcm_format`, in source order. -/
inductive AudioOp where
  | tomono
  | lin2lin
  | ratecv
deriving DecidableEq, Repr

/-- The `audioop` module is an external collaborator (a C extension of the
Python standard library), so its three sample transformations are abstract
parameters: `tomono frames width`, `lin2lin frames width newWidth`, and
`ratecv frames width channels rate newRate`. -/
structure AudioOps where
  tomono : List Int → Nat → List Int
  lin2lin : List Int → Nat → Nat → List Int
  ratecv : List Int → Nat → Nat → Nat → Nat → List Int

/-- Second half of `core/tts_worker.py:_ensure_pcm_format`, after the
channel handling: convert the sample width to 16-bit if needed, then the
sample rate to 16 kHz if needed, then run the final consistency check and
write the output WAV with the target parameters (mono, 16-bit, 16 kHz).
The returned trace records which `audioop` transformations ran, in
execution order. -/
def ensureRest (ops : AudioOps) (channels sample_width sample_rate : Nat)
    (frames : List Int) (tr : List AudioOp) :
    Except String (WavParams × List Int × List AudioOp) :=
  let step1 : List Int × Nat × List AudioOp :=
    if sample_width ≠ 2 then
      (ops.lin2lin frames sample_width 2, 2, tr ++ [AudioOp.lin2lin])
    else (frames, sample_width, tr)
  let step2 : List Int × Nat × List AudioOp :=
    if sample_rate ≠ 16000 then
      (ops.ratecv step1.1 step1.2.1 channels sample_rate 16000, 16000,
        step1.2.2 ++ [AudioOp.ratecv])
    else (step1.1, sample_rate, step1.2.2)
  if channels ≠ 1 ∨ step1.2.1 ≠ 2 ∨ step2.2.1 ≠ 16000 then
    Except.error "Failed to normalize WAV format"
  else
    Except.ok (WavParams.mk 1 2 16000, step2.1, step2.2.2)

/-- Embedding of `core/tts_worker.py:_ensure_pcm_format`: downmix the
channels first (only stereo is supported; more than two channels is an
error), then convert the bit depth, then the sample rate, and return the
output WAV parameters (always the fixed target profile), the final frames,
and the trace of `audioop` transformations applied. -/
def ensure_pcm_format (ops : AudioOps) (p : WavParams) (frames0 : List Int) :
    Except String (WavParams × List Int × List AudioOp) :=
  if p.nchannels > 1 then
    if p.nchannels ≠ 2 then Except.error "Unsupported channel count"
    else ensureRest ops 1 p.sampwidth p.framerate
      (ops.tomono frames0 p.sampwidth) [AudioOp.tomono]
  else
    ensureRest ops p.nchannels p.sampwidth p.framerate frames0 []

/-- On every successful run, the second half of the normalization returns
the fixed target parameters and extends the incoming trace with at most a
bit-depth conversion followed by a sample-rate conversion, in that order. -/
theorem ensureRest_ok (ops : AudioOps) (ch sw sr : Nat) (f : List Int)
    (tr : List AudioOp) (q : WavParams) (fr : List Int) (tr2 : List AudioOp)
    (h : ensureRest ops ch sw sr f tr = Except.ok (q, fr, tr2)) :
    q = WavParams.mk 1 2 16000 ∧
      ∃ suf, tr2 = tr ++ suf ∧
        List.Sublist suf [AudioOp.lin2lin, AudioOp.ratecv] := by
  unfold ensureRest at h
  by_cases hw : sw = 2 <;> by_cases hr : sr = 16000 <;>
    simp only [hw, hr, ne_eq, not_true_eq_false, not_false_eq_true,
      ite_true, ite_false, if_true, if_false] at h <;>
    split at h <;>
    simp only [reduceCtorEq, Except.ok.injEq, Prod.mk.injEq] at h
  · exact ⟨h.1.symm, [], by simp [h.2.2.symm], by decide⟩
  · exact ⟨h.1.symm, [AudioOp.ratecv],
      by simp [h.2.2.symm, List.append_assoc], by decide⟩
  · exact ⟨h.1.symm, [AudioOp.lin2lin],
      by simp [h.2.2.symm, List.append_assoc], by decide⟩
  · exact ⟨h.1.symm, [AudioOp.lin2lin, AudioOp.ratecv],
      by simp [h.2.2.symm, List.append_assoc], by decide⟩

/-- C9: whenever `_ensure_pcm_format` succeeds, the returned audio carries
exactly the fixed output profile (mono, 16-bit, 16 kHz), and the `audioop`
transformations that ran form an in-order selection of channel downmix,
then bit-depth conversion, then sample-rate conversion. -/
theorem c9_normalization_order_and_profile
    (ops : AudioOps) (p : WavParams) (f0 : List Int)
    (q : WavParams) (fr : List Int) (tr : List AudioOp)
    (h : ensure_pcm_format ops p f0 = Except.ok (q, fr, tr)) :
    q = WavParams.mk 1 2 16000 ∧
      List.Sublist tr [AudioOp.tomono, AudioOp.lin2lin, AudioOp.ratecv] := by
  unfold ensure_pcm_format at h
  split at h
  · split at h
    · exact absurd h (by simp)
    · obtain ⟨hq, suf, hsuf, hsub⟩ :=
        ensureRest_ok ops 1 p.sampwidth p.framerate _ _ q fr tr h
      refine ⟨hq, ?_⟩
      rw [hsuf]
      exact List.Sublist.cons₂ _ hsub
  · obtain ⟨hq, suf, hsuf, hsub⟩ :=
      ensureRest_ok ops p.nchannels p.sampwidth p.framerate _ _ q fr tr h
    refine ⟨hq, ?_⟩
    rw [hsuf, List.nil_append]
    exact hsub.trans (by decide)

/-- Identity sample transformations used as the concrete `audioop`
instantiation in the C9 witness. -/
def c9Ops : AudioOps :=
  AudioOps.mk (fun f _ => f) (fun f _ _ => f) (fun f _ _ _ _ => f)

/-- Witness for C9 at a concrete stereo 8-bit 22050 Hz input, which runs
all three transformations in order. -/
theorem c9_normalization_order_and_profile_witness :
    ensure_pcm_format c9Ops (WavParams.mk 2 1 22050) [5] =
        Except.ok (WavParams.mk 1 2 16000, [5],
          [AudioOp.tomono, AudioOp.lin2lin, AudioOp.ratecv]) ∧
      (WavParams.mk 1 2 16000 = WavParams.mk 1 2 16000 ∧
        List.Sublist [AudioOp.tomono, AudioOp.lin2lin, AudioOp.ratecv]
          [AudioOp.tomono, AudioOp.lin2lin, AudioOp.ratecv]) :=
  ⟨rfl, c9_normalization_order_and_profile c9Ops (WavParams.mk 2 1 22050)
    [5] (WavParams.mk 1 2 16000) [5]
    [AudioOp.tomono, AudioOp.lin2lin, AudioOp.ratecv] rfl⟩

/-- A message the server sends to the client over the websocket: the
processing progress notices (with their optional transcript or sentence
payload), the error notice, the completion notice, the reset
acknowledgement, and binary audio chunks. -/
inductive ServerMsg where
  | processing (stage : String) (payload : Option String)
  | errorNotice (message : String)
  | complete
  | resetComplete
  | audioChunk (data : List Nat)
deriving DecidableEq, Repr

/-- A call made to one of the three external stage adapters. -/
inductive StageCall where
  | transcribe (audio : List Nat)
  | llmComplete (transcript : String)
  | synthesize (text : String)
deriving DecidableEq, Repr

/-- True exactly for error status notices. -/
def ServerMsg.isErr : ServerMsg → Bool
  | ServerMsg.errorNotice _ => true
  | _ => false

/-- The three external stage adapters and the sentence segmentation, all
external collaborators of the websocket loop, as oracle functions:
`transcribe` embeds the result of `process_audio_for_transcription` (which
catches its own exceptions and returns a string in all cases), `api` the
outcome of the Groq call for a given transcript, `tts` the result of
`synthesize_response_audio` (`none` means the synthesis raised), and
`segment` the `nltk.sent_tokenize` splitting. -/
structure PipelineOracles where
  transcribe : List Nat → String
  api : String → ApiResult
  tts : String → Option (List Nat)
  segment : String → List String

/-- The per-session mutable state of the websocket loop: the audio buffer
(`SESSION_AUDIO_BUFFERS[session_id]`), the chunk/byte statistics
(`SESSION_AUDIO_STATS[session_id]`), and the conversation history
(`SESSION_CONTEXTS[session_id]`, absent modelled as empty). -/
structure SessionState where
  buffer : List Nat
  chunks : Nat
  totalBytes : Nat
  hist : List Turn
deriving DecidableEq, Repr

/-- The session state right after the handshake (`main.py` lines 340-341). -/
def freshSession : SessionState :=
  SessionState.mk [] 0 0 []

/-- The result of one EOS handling pass: the post state, the messages sent
to the client in order, the stage calls made in order, and the value of the
session audio-buffer entry at the moment the first stage call starts
(`none` when no stage ran).  The last field reflects that the source reads
the buffer with `getvalue()`, which does not drain it, and replaces the
entry only in the `finally` block after the pipeline. -/
structure StepResult where
  state : SessionState
  outputs : List ServerMsg
  calls : List StageCall
  bufferAtFirstStage : Option (List Nat)
deriving DecidableEq, Repr

/-- Fuel-indexed worker for `chunkBytes`; the fuel is an upper bound on the
number of chunks and makes the recursion structural. -/
def chunkBytesGo : Nat → List Nat → List (List Nat)
  | 0, _ => []
  | _, [] => []
  | fuel + 1, l => l.take 4096 :: chunkBytesGo fuel (l.drop 4096)

/-- The synthesized audio split into 4096-byte chunks, as streamed by
`main.py` lines 468-471. -/
def chunkBytes (l : List Nat) : List (List Nat) :=
  chunkBytesGo l.length l

/-- The per-sentence synthesis loop of `main.py` lines 448-471: blank
sentences are skipped; for each remaining sentence a tts progress notice
is sent, the synthesis stage is called, and its audio is streamed in
chunks; a synthesis exception aborts the loop (the notice for the failing
sentence was already sent).  Returns the messages, the synthesis calls,
and whether the loop completed without an exception. -/
def synthLoop (o : PipelineOracles) :
    List String → List ServerMsg × List StageCall × Bool
  | [] => ([], [], true)
  | s :: rest =>
    if isBlank s then synthLoop o rest
    else
      match o.tts s with
      | none =>
          ([ServerMsg.processing "tts" (some s)], [StageCall.synthesize s],
            false)
      | some wav =>
          let r := synthLoop o rest
          (ServerMsg.processing "tts" (some s) ::
              ((chunkBytes wav).map ServerMsg.audioChunk ++ r.1),
            StageCall.synthesize s :: r.2.1, r.2.2)

/-- Fallback substituted by `main.py` line 443 when the completion reply is
empty. -/
def FALLBACK_EMPTY_LLM : String :=
  "I\x27m sorry, I couldn\x27t generate a response. Please try again."

/-- Error notice sent by `main.py` lines 418-421 on an empty transcript. -/
def ERR_EMPTY_TRANSCRIPT : String :=
  "Could not understand audio. Please try again."

/-- Error notice sent by the pipeline exception handler,
`main.py` lines 485-489. -/
def ERR_PROCESSING : String :=
  "An error occurred while processing your request."

/-- The try-block of the EOS branch (`main.py` lines 402-489) run on the
drained bytes: transcription first; an empty or whitespace transcript sends
an error notice; otherwise the completion stage runs with the session
history, an empty reply is replaced by a fixed fallback, and the sentence
synthesis loop streams the reply (a synthesis exception ends with the
processing-error notice instead of the completion notice).  Returns the
messages sent, the stage calls made, and the resulting history. -/
def runPipeline (o : PipelineOracles) (hist : List Turn) (pcm : List Nat) :
    List ServerMsg × List StageCall × List Turn :=
  if isBlank (o.transcribe pcm) then
    ([ServerMsg.processing "transcription" none,
      ServerMsg.errorNotice ERR_EMPTY_TRANSCRIPT],
      [StageCall.transcribe pcm], hist)
  else
    let t := o.transcribe pcm
    let lr := get_llm_response hist t (o.api t)
    let reply := if isBlank lr.2 then FALLBACK_EMPTY_LLM else lr.2
    let syn := synthLoop o (o.segment reply)
    let tailMsgs :=
      if syn.2.2 then syn.1 ++ [ServerMsg.complete]
      else syn.1 ++ [ServerMsg.errorNotice ERR_PROCESSING]
    (ServerMsg.processing "transcription" none ::
        ServerMsg.processing "llm" (some t) :: tailMsgs,
      StageCall.transcribe pcm :: StageCall.llmComplete t :: syn.2.1, lr.1)

/-- Embedding of the EOS branch of the websocket loop (`main.py` lines
387-495).  With an empty buffer the handler only resets the buffer and
stats and sends nothing (the source prints a server-side log line but sends
no message to the client).  Otherwise it reads the buffered bytes with
getvalue, which leaves the buffer entry untouched while the stages run, and
the `finally` block resets the buffer and stats on every path. -/
def handleEos (o : PipelineOracles) (st : SessionState) : StepResult :=
  if st.buffer.length = 0 then
    StepResult.mk (SessionState.mk [] 0 0 st.hist) [] [] none
  else
    StepResult.mk
      (SessionState.mk [] 0 0 (runPipeline o st.hist st.buffer).2.2)
      (runPipeline o st.hist st.buffer).1
      (runPipeline o st.hist st.buffer).2.1
      (some st.buffer)

/-- Embedding of the binary-frame branch of the websocket loop (`main.py`
lines 362-375): the payload is appended to the session buffer and the
statistics are updated; nothing is sent to the client. -/
def handleBinary (st : SessionState) (payload : List Nat) : SessionState :=
  SessionState.mk (st.buffer ++ payload) (st.chunks + 1)
    (st.totalBytes + payload.length) st.hist

/-- Embedding of the RESET branch of the websocket loop (`main.py` lines
497-504): the conversation context is cleared, the audio buffer is
replaced with a fresh one (the statistics are not touched), and a single
reset acknowledgement is sent. -/
def handleReset (st : SessionState) : SessionState × List ServerMsg :=
  (SessionState.mk [] st.chunks st.totalBytes [], [ServerMsg.resetComplete])

/-- Concrete oracle whose transcription is always empty, used for the C2
counterexample: no stage behaviour matters since no stage is reached. -/
def oZero : PipelineOracles :=
  PipelineOracles.mk (fun _ => "") (fun _ => ApiResult.otherError)
    (fun _ => none) (fun s => [s])

/-- Concrete oracle for the C3 counterexample: transcription yields a word,
the completion call times out (request error), synthesis succeeds, and the
reply is a single sentence. -/
def oTimeout : PipelineOracles :=
  PipelineOracles.mk (fun _ => "hello") (fun _ => ApiResult.requestError)
    (fun _ => some [1, 2, 3]) (fun s => [s])

/-- C2 counterexample: an EOS on an empty audio buffer sends nothing at all
to the client — no status notice is emitted (the source only prints a
server-side log line) — and makes no stage call. -/
theorem c2_empty_eos_sends_nothing :
    (handleEos oZero freshSession).outputs = [] ∧
      (handleEos oZero freshSession).calls = [] :=
  ⟨rfl, rfl⟩

/-- C2 amended: an EOS with an empty buffer is a silent no-op — no client
message, no stage call, buffer and stats reset — and a RESET followed
immediately by an EOS with no audio produces no stage calls and exactly one
status notice, the reset acknowledgement sent by the RESET itself. -/
theorem c2_empty_eos_silent_noop (o : PipelineOracles) (st : SessionState) :
    ((handleReset st).2 = [ServerMsg.resetComplete] ∧
      (handleEos o (handleReset st).1).outputs = [] ∧
      (handleEos o (handleReset st).1).calls = []) ∧
    (st.buffer = [] →
      (handleEos o st).outputs = [] ∧ (handleEos o st).calls = [] ∧
        (handleEos o st).state = SessionState.mk [] 0 0 st.hist) := by
  refine ⟨⟨rfl, rfl, rfl⟩, ?_⟩
  intro hbuf
  have h0 : st.buffer.length = 0 := by rw [hbuf]; rfl
  unfold handleEos
  rw [if_pos h0]
  simp

/-- Witness for C2 amended at the fresh session and the concrete oracle. -/
theorem c2_empty_eos_silent_noop_witness :
    freshSession.buffer = [] ∧
      ((handleEos oZero freshSession).outputs = [] ∧
        (handleEos oZero freshSession).calls = [] ∧
        (handleEos oZero freshSession).state =
          SessionState.mk [] 0 0 freshSession.hist) :=
  ⟨rfl, (c2_empty_eos_silent_noop oZero freshSession).2 rfl⟩

/-- Binary audio chunks are never error notices. -/
theorem filter_isErr_audioChunks (cs : List (List Nat)) :
    (cs.map ServerMsg.audioChunk).filter ServerMsg.isErr = [] := by
  induction cs with
  | nil => rfl
  | cons c rest ih => simp [ServerMsg.isErr, ih]

/-- When every synthesis call succeeds, the sentence loop finishes without
an exception and its output contains no error notice. -/
theorem synthLoop_ok (o : PipelineOracles)
    (hs : ∀ s, (o.tts s).isSome = true) (ss : List String) :
    (synthLoop o ss).2.2 = true ∧
      (synthLoop o ss).1.filter ServerMsg.isErr = [] := by
  induction ss with
  | nil => exact ⟨rfl, rfl⟩
  | cons s rest ih =>
      by_cases hb : isBlank s = true
      · simpa [synthLoop, hb] using ih
      · obtain ⟨w, hw⟩ := Option.isSome_iff_exists.mp (hs s)
        refine ⟨?_, ?_⟩
        · simp [synthLoop, hb, hw, ih.1]
        · simp [synthLoop, hb, hw, List.filter_append, ih.2,
            filter_isErr_audioChunks, ServerMsg.isErr]

/-- C3 counterexample: when the completion call times out, the client
receives zero error status notices for the utterance — not exactly one —
because the fallback string is streamed like a normal reply, ending with
the completion notice. -/
theorem c3_timeout_no_error_notice :
    ((handleEos oTimeout (SessionState.mk [9] 1 1 [])).outputs.filter
        ServerMsg.isErr) = [] ∧
      (handleEos oTimeout (SessionState.mk [9] 1 1 [])).outputs.getLast? =
        some ServerMsg.complete :=
  ⟨rfl, rfl⟩

/-- C3 amended: when the completion call fails with a timeout or HTTP
error (while transcription returned text and synthesis works), the
pipeline emits no error notice, streams the fixed fallback reply as a
normal response ending in the completion notice, and the buffer and stats
are reset, so the session is not left in a processing state and a
subsequent EOS proceeds normally. -/
theorem c3_fallback_streamed_normally (o : PipelineOracles)
    (st : SessionState) (hb : st.buffer ≠ [])
    (ht : isBlank (o.transcribe st.buffer) = false)
    (hapi : o.api (o.transcribe st.buffer) = ApiResult.requestError ∨
      o.api (o.transcribe st.buffer) = ApiResult.httpStatusError)
    (htts : ∀ s, (o.tts s).isSome = true) :
    (handleEos o st).outputs.filter ServerMsg.isErr = [] ∧
      (handleEos o st).outputs.getLast? = some ServerMsg.complete ∧
      (handleEos o st).state.buffer = [] ∧
      (handleEos o st).state.chunks = 0 ∧
      (handleEos o st).state.totalBytes = 0 := by
  have h0 : ¬ (st.buffer.length = 0) := by
    simpa [List.length_eq_zero] using hb
  have hreply : isBlank (get_llm_response st.hist (o.transcribe st.buffer)
      (o.api (o.transcribe st.buffer))).2 = false := by
    rcases hapi with h | h <;> rw [h] <;> rfl
  obtain ⟨hok, hfil⟩ := synthLoop_ok o htts
    (o.segment (get_llm_response st.hist (o.transcribe st.buffer)
      (o.api (o.transcribe st.buffer))).2)
  unfold handleEos runPipeline
  rw [if_neg h0]
  simp only [ht, Bool.false_eq_true, if_false, ite_false, hreply, hok,
    ite_true, if_true]
  refine ⟨?_, ?_, trivial, trivial, trivial⟩
  · simp [List.filter_append, hfil, ServerMsg.isErr]
  · rw [show ServerMsg.processing "transcription" none ::
        ServerMsg.processing "llm" (some (o.transcribe st.buffer)) ::
        ((synthLoop o (o.segment (get_llm_response st.hist
          (o.transcribe st.buffer)
          (o.api (o.transcribe st.buffer))).2)).1 ++ [ServerMsg.complete]) =
        (ServerMsg.processing "transcription" none ::
          ServerMsg.processing "llm" (some (o.transcribe st.buffer)) ::
          (synthLoop o (o.segment (get_llm_response st.hist
            (o.transcribe st.buffer)
            (o.api (o.transcribe st.buffer))).2)).1) ++ [ServerMsg.complete]
      from by simp]
    exact List.getLast?_concat _

/-- Witness for C3 amended at the concrete timeout oracle and a one-byte
buffer. -/
theorem c3_fallback_streamed_normally_witness :
    ((SessionState.mk [9] 1 1 []).buffer ≠ [] ∧
        isBlank (oTimeout.transcribe (SessionState.mk [9] 1 1 []).buffer) =
          false ∧
        oTimeout.api (oTimeout.transcribe (SessionState.mk [9] 1 1
          []).buffer) = ApiResult.requestError) ∧
      ((handleEos oTimeout (SessionState.mk [9] 1 1 [])).outputs.filter
          ServerMsg.isErr = [] ∧
        (handleEos oTimeout (SessionState.mk [9] 1 1 [])).outputs.getLast? =
          some ServerMsg.complete ∧
        (handleEos oTimeout (SessionState.mk [9] 1 1 [])).state.buffer =
          [] ∧
        (handleEos oTimeout (SessionState.mk [9] 1 1 [])).state.chunks = 0 ∧
        (handleEos oTimeout (SessionState.mk [9] 1 1
          [])).state.totalBytes = 0) :=
  ⟨⟨by decide, rfl, rfl⟩,
    c3_fallback_streamed_normally oTimeout (SessionState.mk [9] 1 1 [])
      (by decide) rfl (Or.inl rfl) (fun _ => rfl)⟩

/-- C4 counterexample: at the moment the first stage call starts, the
session buffer entry still holds the drained bytes — it has not been
replaced with an empty buffer before the stage call. -/
theorem c4_buffer_not_cleared_before_stage :
    (handleEos oTimeout (SessionState.mk [9] 1 1 [])).bufferAtFirstStage =
        some [9] ∧
      (some [9] : Option (List Nat)) ≠ some [] :=
  ⟨rfl, by decide⟩

/-- C4 amended: during an EOS pipeline run on a non-empty buffer the
drained bytes remain the session buffer state while the stages run, and
the buffer is replaced with an empty one only after the pipeline, in the
guaranteed `finally` block, on every path. -/
theorem c4_buffer_cleared_after_pipeline (o : PipelineOracles)
    (st : SessionState) (hb : st.buffer ≠ []) :
    (handleEos o st).bufferAtFirstStage = some st.buffer ∧
      (handleEos o st).state.buffer = [] := by
  have h0 : ¬ (st.buffer.length = 0) := by
    simpa [List.length_eq_zero] using hb
  unfold handleEos
  rw [if_neg h0]
  exact ⟨rfl, rfl⟩

/-- Witness for C4 amended at the concrete timeout oracle. -/
theorem c4_buffer_cleared_after_pipeline_witness :
    (SessionState.mk [9] 1 1 []).buffer ≠ [] ∧
      ((handleEos oTimeout (SessionState.mk [9] 1 1
          [])).bufferAtFirstStage = some (SessionState.mk [9] 1 1
          []).buffer ∧
        (handleEos oTimeout (SessionState.mk [9] 1 1 [])).state.buffer =
          []) :=
  ⟨by decide,
    c4_buffer_cleared_after_pipeline oTimeout (SessionState.mk [9] 1 1 [])
      (by decide)⟩

/-- C5: after an EOS with a non-empty buffer the session buffer and stats
are empty and zero as soon as the handler returns, for every oracle
behaviour — full success, empty transcript, failed completion, and a
synthesis exception are all instances of the universally quantified
oracles. -/
theorem c5_buffer_empty_after_pipeline (o : PipelineOracles)
    (st : SessionState) (_hb : st.buffer ≠ []) :
    (handleEos o st).state.buffer = [] ∧
      (handleEos o st).state.chunks = 0 ∧
      (handleEos o st).state.totalBytes = 0 := by
  unfold handleEos
  split <;> exact ⟨rfl, rfl, rfl⟩

/-- Witness for C5 at an oracle whose synthesis raises (tts returns none),
exercising the exception path of the pipeline. -/
theorem c5_buffer_empty_after_pipeline_witness :
    (SessionState.mk [7, 8] 2 2 []).buffer ≠ [] ∧
      ((handleEos (PipelineOracles.mk (fun _ => "hi")
            (fun _ => ApiResult.success "ok") (fun _ => none) (fun s => [s]))
          (SessionState.mk [7, 8] 2 2 [])).state.buffer = [] ∧
        (handleEos (PipelineOracles.mk (fun _ => "hi")
            (fun _ => ApiResult.success "ok") (fun _ => none) (fun s => [s]))
          (SessionState.mk [7, 8] 2 2 [])).state.chunks = 0 ∧
        (handleEos (PipelineOracles.mk (fun _ => "hi")
            (fun _ => ApiResult.success "ok") (fun _ => none) (fun s => [s]))
          (SessionState.mk [7, 8] 2 2 [])).state.totalBytes = 0) :=
  ⟨by decide,
    c5_buffer_empty_after_pipeline (PipelineOracles.mk (fun _ => "hi")
      (fun _ => ApiResult.success "ok") (fun _ => none) (fun s => [s]))
      (SessionState.mk [7, 8] 2 2 []) (by decide)⟩

/-- Binary frames append to the session buffer in receipt order: folding
the binary-frame handler concatenates the payloads. -/
theorem foldl_handleBinary_buffer (frames : List (List Nat))
    (st : SessionState) :
    (frames.foldl handleBinary st).buffer = st.buffer ++ frames.flatten := by
  induction frames generalizing st with
  | nil => simp
  | cons f rest ih =>
      simp [List.foldl_cons, handleBinary, ih, List.append_assoc]

/-- The first stage call of any pipeline run is the transcription call on
exactly the drained bytes. -/
theorem runPipeline_calls_head (o : PipelineOracles) (hist : List Turn)
    (pcm : List Nat) :
    (runPipeline o hist pcm).2.1.head? =
      some (StageCall.transcribe pcm) := by
  unfold runPipeline
  split <;> rfl

/-- C6: for every sequence of binary frames received on a fresh session and
followed by an EOS, the audio argument of the transcription stage call is
the byte-for-byte concatenation of the frame payloads in receipt order. -/
theorem c6_concat_frames_to_transcription (o : PipelineOracles)
    (frames : List (List Nat)) (hne : frames.flatten ≠ []) :
    (handleEos o (frames.foldl handleBinary freshSession)).calls.head? =
      some (StageCall.transcribe frames.flatten) := by
  have hbuf : (frames.foldl handleBinary freshSession).buffer =
      frames.flatten := by
    rw [foldl_handleBinary_buffer]
    rfl
  have h0 : ¬ ((frames.foldl handleBinary freshSession).buffer.length =
      0) := by
    rw [hbuf]
    intro hzero
    exact hne (List.length_eq_zero.mp hzero)
  unfold handleEos
  rw [if_neg h0, hbuf]
  exact runPipeline_calls_head o _ frames.flatten

/-- Witness for C6 at two concrete frames. -/
theorem c6_concat_frames_to_transcription_witness :
    ([[1], [2, 3]] : List (List Nat)).flatten ≠ [] ∧
      (handleEos oTimeout (([[1], [2, 3]] : List (List Nat)).foldl
          handleBinary freshSession)).calls.head? =
        some (StageCall.transcribe ([[1], [2, 3]] : List (List Nat)).flatten) :=
  ⟨by decide, c6_concat_frames_to_transcription oTimeout [[1], [2, 3]]
    (by decide)⟩

/-- Witness for C1 amended at a full 20-message history (ten pairs) and one
more user append with the default cap of 10 turns. -/
theorem manage_context_cap_and_single_trim_witness :
    (c1Msgs.take 20).length ≤ 2 * 10 ∧
      (manage_context (c1Msgs.take 20) "user" "u11" 10).length ≤ 2 * 10 ∧
      manage_context (c1Msgs.take 20) "user" "u11" 10 =
        (c1Msgs.take 20).drop 1 ++ [⟨"user", "u11"⟩] :=
  ⟨by decide,
    (manage_context_cap_and_single_trim (c1Msgs.take 20) "user" "u11" 10
      (by decide)).1,
    (manage_context_cap_and_single_trim (c1Msgs.take 20) "user" "u11" 10
      (by decide)).2 (by decide) (by decide)⟩
